import Mathlib

/-
Shallow embedding of the device-reachability subsystem of the
netcafe_automation integration (custom_components/netcafe_automation):
scanner.py (pinger, get_arp_subprocess, the Scanner strategies,
async_update_devices, async_get_scanner), coordinator.py
(NetcafeUpdateCoordinator.is_reachable), const.py (DEFAULT_CONSIDER_HOME) and
the device-creation loop of __init__.py (async_setup_entry).

Modelling conventions: datetimes are Nat seconds; timedeltas are Nat seconds;
Python lists of strings are Lean List String; a Python dict keyed by entity_id
is an association List (String × DeviceData) (insertion-ordered, like dict);
a Python set is used only through membership, so it is carried as a list and
interpreted via List.contains / ∈; an awaited call that may raise is an Option
or a dedicated outcome type describing what the external world did.
-/

namespace Netcafe

/-- const.py line 49: grace window in seconds, `DEFAULT_CONSIDER_HOME = 45`. -/
def DEFAULT_CONSIDER_HOME : Nat := 45

/-- const.py line 50: scan interval in seconds, `PROBE_INTERVAL = 5`. -/
def PROBE_INTERVAL : Nat := 5

/-- scanner.py lines 25-31, `class DeviceData`. `_reachable` and `_last_seen`
are the Python fields of the same names (leading underscore dropped);
`consider_home` is the timedelta in whole seconds; `_last_seen = none` is
Python `None`. -/
structure DeviceData where
  ip_address : String
  consider_home : Nat
  title : String
  reachable : Bool := false
  last_seen : Option Nat := none
deriving Repr, DecidableEq

/-- Outcome of one `ping` subprocess for one address, scanner.py lines 45-72:
the process finished inside the 1.5 s wait with some return code, or the wait
timed out / an exception was thrown. -/
inductive ProbeOutcome where
  | exited (returncode : Int)
  | timeoutOrError
deriving Repr, DecidableEq

/-- scanner.py lines 45-72, inner `ping_one`: `success = proc.returncode == 0`,
and the `except` arm returns False on timeout or error. -/
def ping_one (o : ProbeOutcome) : Bool :=
  match o with
  | .exited rc => rc == 0
  | .timeoutOrError => false

/-- scanner.py lines 34-82, `pinger`: each address is paired with the outcome
of its own probe; the result collects, in order, the addresses whose probe
returned True (`if isinstance(result, bool) and result: reachable.append(ip)`).
`asyncio.gather(..., return_exceptions=True)` never lets one probe abort the
call, so the function is total in the outcomes. -/
def pinger (probes : List (String × ProbeOutcome)) : List String :=
  (probes.filter (fun p => ping_one p.2)).map Prod.fst

/-- What the neighbor-table subprocess did, scanner.py lines 91-99: it
completed within the 2 s `asyncio.timeout` with a return code and decoded
stdout lines, or the timeout fired, or some other exception was thrown. -/
inductive SubprocResult where
  | completed (returncode : Int) (stdout : List String)
  | timedOut
  | errored
deriving Repr, DecidableEq

/-- scanner.py lines 85-101, `get_arp_subprocess`: `response = []`; on
completion `response = result.decode().splitlines()` when stdout is non-empty
(the returncode is never inspected); the `except` arm catches the timeout and
every other exception, leaving `response = []`. -/
def get_arp_subprocess (r : SubprocResult) : List String :=
  match r with
  | .completed _ stdout => stdout
  | .timedOut => []
  | .errored => []

/-- Python `row.split()` worker: walk the characters, accumulating the
current token reversed; whitespace runs produce no empty pieces. -/
def splitWhitespaceAux (cs : List Char) (acc : List Char) : List String :=
  match cs with
  | [] => if acc.isEmpty then [] else [String.mk acc.reverse]
  | c :: rest =>
      if c.isWhitespace then
        if acc.isEmpty then splitWhitespaceAux rest []
        else String.mk acc.reverse :: splitWhitespaceAux rest []
      else splitWhitespaceAux rest (c :: acc)

/-- Python `row.split()`: split on whitespace runs, dropping empty pieces. -/
def splitWhitespace (s : String) : List String :=
  splitWhitespaceAux s.toList []

/-- Python `row.split()[0]`; rows reaching this point contain a colon so the
token list is non-empty and the default is never used. -/
def firstToken (s : String) : String :=
  (splitWhitespace s).headD ""

/-- Python `row.count(":")`. -/
def countColons (s : String) : Nat :=
  (s.toList.filter (fun c => c == ':')).length

namespace ScannerIPNeigh

/-- scanner.py lines 140-147, `ScannerIPNeigh.get_arp_records`: run
`ip -4 neigh show nud reachable` through `get_arp_subprocess`, and when the
result is non-empty keep the first whitespace token of every row holding
exactly five colons. -/
def get_arp_records (r : SubprocResult) : List String :=
  let result := get_arp_subprocess r
  if result.isEmpty then []
  else (result.filter (fun row => countColons row == 5)).map firstToken

end ScannerIPNeigh

namespace ScannerArp

/-- scanner.py lines 153-160, `ScannerArp.get_arp_records`: identical row
processing over the output of `arp -ne`. -/
def get_arp_records (r : SubprocResult) : List String :=
  let result := get_arp_subprocess r
  if result.isEmpty then []
  else (result.filter (fun row => countColons row == 5)).map firstToken

end ScannerArp

/-- The three scanner strategies of scanner.py (ScannerIPRoute,
ScannerIPNeigh, ScannerArp). -/
inductive Scanner where
  | ipRoute
  | ipNeigh
  | arp
deriving Repr, DecidableEq

/-- scanner.py line 104, `class ScannerException(Exception)`. -/
inductive ScannerException where
  | noScannerTool (msg : String)
deriving Repr, DecidableEq

/-- scanner.py lines 209-221, `async_get_scanner`. Inputs are the lists each
strategy's capability call `get_arp_records` would return (each strategy
swallows its own exceptions and yields a list). Python truthiness of a list is
non-emptiness; the first truthy strategy is adopted, otherwise
`ScannerException("No scanner tool available")` is raised. -/
def async_get_scanner (ipRouteRecords ipNeighRecords arpRecords : List String) :
    Except ScannerException Scanner :=
  if ipRouteRecords.isEmpty = false then .ok .ipRoute
  else if ipNeighRecords.isEmpty = false then .ok .ipNeigh
  else if arpRecords.isEmpty = false then .ok .arp
  else .error (.noScannerTool "No scanner tool available")

/-- coordinator.py lines 30-41, `NetcafeUpdateCoordinator.is_reachable`:
raw flag first, then the grace-window comparison
`now - self.device._last_seen < self.device.consider_home` when a
last-seen timestamp exists (a datetime is always truthy, so the Python
`if self.device._last_seen:` is a None test). -/
def is_reachable (device : DeviceData) (now : Nat) : Bool :=
  if device.reachable then true
  else
    match device.last_seen with
    | some t => decide (now - t < device.consider_home)
    | none => false

/-- scanner.py lines 174-182: `arp_reachable = set()`; inside the `try`,
when the scanner call succeeds with records `rs`,
`arp_reachable = set(ip_addresses).intersection(rs)` (guarded by
`if arp_records:`); when the scanner call raises (`none`), the `except` arm
leaves the empty set. Carried as the sublist of `ip_addresses` whose members
occur in the records. -/
def arp_reachable (ip_addresses : List String) (arpResult : Option (List String)) :
    List String :=
  match arpResult with
  | none => []
  | some records =>
      if records.isEmpty then []
      else ip_addresses.filter (fun ip => records.contains ip)

/-- scanner.py line 185: `reachable_ip = set(ping_reachable) | arp_reachable`,
used only through membership, so carried as the concatenation. -/
def reachable_ip (ip_addresses ping_reachable : List String)
    (arpResult : Option (List String)) : List String :=
  ping_reachable ++ arp_reachable ip_addresses arpResult

/-- One of the warning-level transition logs of scanner.py lines 200-206:
`online = true` is the "Device ONLINE" message (no elapsed time), and
`online = false` the "Device OFFLINE ... last seen {n}s ago" message, whose
`time_since_seen` is `now - _last_seen` when a timestamp exists, else 0. -/
structure TransitionEvent where
  ip_address : String
  title : String
  online : Bool
  time_since_seen : Option Nat
deriving Repr, DecidableEq

/-- scanner.py lines 194-206, the per-device body of the update loop:
`was_reachable = device._reachable`;
`device._reachable = device.ip_address in reachable_ip`; when reachable,
`_last_seen = now` and an ONLINE event fires when `not was_reachable`; when
unreachable, `_last_seen` is untouched and an OFFLINE event fires when
`was_reachable`, carrying `now - _last_seen` (0 when `_last_seen` is None). -/
def update_one (reach : List String) (now : Nat) (device : DeviceData) :
    DeviceData × List TransitionEvent :=
  let was_reachable := device.reachable
  if reach.contains device.ip_address then
    ({ device with reachable := true, last_seen := some now },
      if was_reachable then []
      else [⟨device.ip_address, device.title, true, none⟩])
  else
    ({ device with reachable := false },
      if was_reachable then
        [⟨device.ip_address, device.title, false,
          some (match device.last_seen with | some t => now - t | none => 0)⟩]
      else [])

/-- Result of one call to `async_update_devices`: the registry as left behind,
the transition events logged, and whether the call ran to completion
(`completed = false` marks an uncaught exception propagating out). -/
structure CycleOutcome where
  devices : List (String × DeviceData)
  events : List TransitionEvent
  completed : Bool
deriving Repr, DecidableEq

/-- scanner.py lines 163-206, `async_update_devices`. `devices` is the
registry dict as an association list. `pingResult` is the outcome of the
`pinger` call (`none` = the call raised; it is not wrapped in any `try`, so
the exception leaves the function before the update loop at lines 193-206,
with the registry exactly as it was). `arpResult` is the outcome of
`scanner.get_arp_records` (`none` = it raised; that IS wrapped in a `try`).
On the happy path every device is rewritten by `update_one` in registry
order. -/
def async_update_devices (devices : List (String × DeviceData))
    (pingResult : Option (List String)) (arpResult : Option (List String))
    (now : Nat) : CycleOutcome :=
  if devices.isEmpty then ⟨devices, [], true⟩
  else
    match pingResult with
    | none => ⟨devices, [], false⟩
    | some ping_reachable =>
        let ip_addresses := devices.map (fun p => p.2.ip_address)
        let reach := reachable_ip ip_addresses ping_reachable arpResult
        let updated := devices.map (fun p => (p.1, update_one reach now p.2))
        ⟨updated.map (fun p => (p.1, p.2.1)),
         (updated.map (fun p => p.2.2)).flatten,
         true⟩

/-- The poll schedule of __init__.py lines 79-100: run one fusion cycle per
tick, threading the registry; each tick supplies the two source outcomes and
the current time, and every event is tagged with its tick's time. -/
def run_schedule (devices : List (String × DeviceData))
    (ticks : List (Option (List String) × Option (List String) × Nat)) :
    List (String × DeviceData) × List (Nat × TransitionEvent) :=
  match ticks with
  | [] => (devices, [])
  | (ping, arpR, now) :: rest =>
      let out := async_update_devices devices ping arpR now
      let tail := run_schedule out.devices rest
      (tail.1, out.events.map (fun e => (now, e)) ++ tail.2)

/-- One row of a room's `computers` list as produced by `_parse_csv_content`
(__init__.py lines 499-502). -/
structure Computer where
  entity_id : String
  ip_address : String
deriving Repr, DecidableEq

/-- __init__.py lines 377-391, the body of the device-creation loop: when the
entity id is not yet a registry key, insert a fresh `DeviceData` with
`consider_home = timedelta(seconds=DEFAULT_CONSIDER_HOME)` and title
`f"{room_name} - {ip_address}"`. -/
def add_computer (room_name : String) (devices : List (String × DeviceData))
    (c : Computer) : List (String × DeviceData) :=
  if (devices.map Prod.fst).contains c.entity_id then devices
  else
    devices ++ [(c.entity_id,
      { ip_address := c.ip_address,
        consider_home := DEFAULT_CONSIDER_HOME,
        title := room_name ++ " - " ++ c.ip_address })]

/-- __init__.py lines 372-391: the double loop over
`rooms_data.items()` and each room's `computers`. -/
def create_devices (rooms : List (String × List Computer))
    (devices : List (String × DeviceData)) : List (String × DeviceData) :=
  rooms.foldl (fun devs room => room.2.foldl (add_computer room.1) devs) devices

/-- Helper: `ping_one` reports success exactly for a zero exit code. -/
theorem ping_one_eq_true (o : ProbeOutcome) :
    ping_one o = true ↔ o = .exited 0 := by
  cases o <;> simp [ping_one]

/-- Helper: `update_one` examines its reachable-set only through membership of
the device's own address. -/
theorem update_one_congr (r1 r2 : List String) (now : Nat) (d : DeviceData)
    (h : r1.contains d.ip_address = r2.contains d.ip_address) :
    update_one r1 now d = update_one r2 now d := by
  unfold update_one
  rw [h]

/-- C1: the derived online state of `NetcafeUpdateCoordinator.is_reachable`
equals the hysteresis invariant: true iff the raw flag is set, or a last-seen
timestamp exists and `now - lastSeen` is strictly below the grace window; in
particular true whenever the window has not yet elapsed after a positive
detection, and false once it has elapsed with the raw flag clear. -/
theorem is_reachable_spec (device : DeviceData) (now : Nat) :
    (is_reachable device now = true ↔
      device.reachable = true ∨
        ∃ t, device.last_seen = some t ∧ now - t < device.consider_home) ∧
    (∀ t, device.last_seen = some t → now - t < device.consider_home →
      is_reachable device now = true) ∧
    (device.reachable = false → ∀ t, device.last_seen = some t →
      device.consider_home ≤ now - t → is_reachable device now = false) := by
  obtain ⟨ip, ch, ti, r, ls⟩ := device
  unfold is_reachable
  cases r <;> cases ls <;> simp_all

/-- Witness for C1 at the spec's scenario values: grace window 45, last seen
at 0; online at now = 44, offline at now = 45. -/
theorem is_reachable_spec_witness :
    is_reachable ⟨"10.0.0.5", 45, "pc", false, some 0⟩ 44 = true ∧
    is_reachable ⟨"10.0.0.5", 45, "pc", false, some 0⟩ 45 = false :=
  ⟨(is_reachable_spec ⟨"10.0.0.5", 45, "pc", false, some 0⟩ 44).2.1 0 rfl
      (by decide),
   (is_reachable_spec ⟨"10.0.0.5", 45, "pc", false, some 0⟩ 45).2.2 rfl 0 rfl
      (by decide)⟩

/-- C2: fusion is a pure OR over the two sources: a tracked address is in the
merged reachable set iff it is in the ping result or in the neighbor-table
result, and the per-device `update_one` outcome is identical whether the
address was detected by ping only, by the neighbor table only, or by both. -/
theorem fusion_is_or (A : String) (ip_addresses ping arp : List String)
    (hA : A ∈ ip_addresses) :
    (A ∈ reachable_ip ip_addresses ping (some arp) ↔ A ∈ ping ∨ A ∈ arp) ∧
    (∀ (now : Nat) (d : DeviceData),
      update_one (reachable_ip ip_addresses [A] (some [])) now d =
        update_one (reachable_ip ip_addresses [] (some [A])) now d ∧
      update_one (reachable_ip ip_addresses [A] (some [])) now d =
        update_one (reachable_ip ip_addresses [A] (some [A])) now d) := by
  constructor
  · unfold reachable_ip arp_reachable
    cases arp with
    | nil => simp
    | cons hd tl => simp [List.mem_filter, hA]
  · intro now d
    have hping : (reachable_ip ip_addresses [A] (some [])).contains d.ip_address =
        decide (d.ip_address = A) := by
      simp [reachable_ip, arp_reachable]
    have harp : (reachable_ip ip_addresses [] (some [A])).contains d.ip_address =
        decide (d.ip_address = A) := by
      by_cases h : d.ip_address = A
      · subst h
        simp [reachable_ip, arp_reachable, List.mem_filter, hA]
      · simp [reachable_ip, arp_reachable, List.mem_filter, h]
    have hboth : (reachable_ip ip_addresses [A] (some [A])).contains d.ip_address =
        decide (d.ip_address = A) := by
      by_cases h : d.ip_address = A
      · subst h
        simp [reachable_ip]
      · simp [reachable_ip, arp_reachable, List.mem_filter, h]
    exact ⟨update_one_congr _ _ now d (by rw [hping, harp]),
           update_one_congr _ _ now d (by rw [hping, hboth])⟩

/-- Witness for C2: `10.0.0.5` tracked, found by the neighbor table only. -/
theorem fusion_is_or_witness :
    ("10.0.0.5" ∈ reachable_ip ["10.0.0.5"] [] (some ["10.0.0.5"]) ↔
      "10.0.0.5" ∈ ([] : List String) ∨ "10.0.0.5" ∈ ["10.0.0.5"]) :=
  (fusion_is_or "10.0.0.5" ["10.0.0.5"] [] ["10.0.0.5"] (by decide)).1

/-- C4: `async_get_scanner` tries kernel-table, then ip-neigh, then arp, in
that order; it adopts the first strategy whose capability call is non-empty
regardless of the later results, and returns the distinguishable
`ScannerException` exactly when all three are empty. -/
theorem scanner_selection_order (a b c : List String) :
    (a ≠ [] → async_get_scanner a b c = .ok .ipRoute) ∧
    (a = [] → b ≠ [] → async_get_scanner a b c = .ok .ipNeigh) ∧
    (a = [] → b = [] → c ≠ [] → async_get_scanner a b c = .ok .arp) ∧
    ((∃ e, async_get_scanner a b c = .error e) ↔
      a = [] ∧ b = [] ∧ c = []) := by
  unfold async_get_scanner
  cases a <;> cases b <;> cases c <;> simp

/-- Witness for C4 at the spec's scenario: strategy (a) empty, strategy (b)
succeeds; the ip-neigh scanner is adopted. -/
theorem scanner_selection_order_witness :
    async_get_scanner [] ["192.168.1.38"] [] = .ok .ipNeigh :=
  (scanner_selection_order [] ["192.168.1.38"] []).2.1 rfl (by decide)

/-- C5: a cycle whose `pinger` call raises leaves the registry entirely
unchanged and emits no events (the exception propagates out of
`async_update_devices` before the update loop runs). -/
theorem ping_failure_leaves_registry (devices : List (String × DeviceData))
    (arpResult : Option (List String)) (now : Nat) :
    (async_update_devices devices none arpResult now).devices = devices ∧
    (async_update_devices devices none arpResult now).events = [] ∧
    ((async_update_devices devices none arpResult now).completed = true ↔
      devices = []) := by
  unfold async_update_devices
  cases devices <;> simp

/-- C6: `pinger` returns exactly the input addresses whose own probe exited
with code 0 inside its timeout; every returned address is an input address,
and a probe that timed out, errored or exited non-zero drops only its own
address without affecting the rest of the call. -/
theorem pinger_spec (probes : List (String × ProbeOutcome)) (ip : String) :
    (ip ∈ pinger probes ↔ (ip, ProbeOutcome.exited 0) ∈ probes) ∧
    (∀ x, x ∈ pinger probes → x ∈ probes.map Prod.fst) ∧
    (∀ o, ping_one o = false → pinger ((ip, o) :: probes) = pinger probes) := by
  refine ⟨?_, ?_, ?_⟩
  · constructor
    · intro h
      obtain ⟨p, hp, hfst⟩ := List.mem_map.mp h
      obtain ⟨hmem, hping⟩ := List.mem_filter.mp hp
      obtain ⟨a, o⟩ := p
      obtain rfl : a = ip := hfst
      rw [ping_one_eq_true] at hping
      subst hping
      exact hmem
    · intro h
      exact List.mem_map.mpr ⟨(ip, .exited 0),
        List.mem_filter.mpr ⟨h, by simp [ping_one]⟩, rfl⟩
  · intro x hx
    obtain ⟨p, hp, hfst⟩ := List.mem_map.mp hx
    exact List.mem_map.mpr ⟨p, (List.mem_filter.mp hp).1, hfst⟩
  · intro o ho
    unfold pinger
    simp [List.filter_cons, ho]

/-- Witness for C6: one success, one timeout; only the success is returned. -/
theorem pinger_spec_witness :
    ("10.0.0.5" ∈
      pinger [("10.0.0.5", .exited 0), ("10.0.0.6", .timeoutOrError)] ↔
      ("10.0.0.5", ProbeOutcome.exited 0) ∈
        [("10.0.0.5", ProbeOutcome.exited 0),
         ("10.0.0.6", ProbeOutcome.timeoutOrError)]) :=
  (pinger_spec [("10.0.0.5", .exited 0), ("10.0.0.6", .timeoutOrError)]
    "10.0.0.5").1

/-- C3 counterexample: in the spec's scenario (grace window 45 s, positive
signal only at t = 0, cycles every 5 s) the code emits the offline event at
the t = 5 cycle, carrying "last seen 5s ago", and emits nothing at the t = 50
cycle; the derived state `is_reachable` is true both entering and leaving the
t = 5 cycle, so the event is keyed to the raw flag, not to a derived-state
change, refuting the claim as stated. -/
theorem transition_events_counterexample :
    (run_schedule [("pc1", ⟨"10.0.0.5", 45, "pc", false, none⟩)]
        [(some ["10.0.0.5"], some [], 0), (some [], some [], 5),
         (some [], some [], 10), (some [], some [], 15),
         (some [], some [], 20), (some [], some [], 25),
         (some [], some [], 30), (some [], some [], 35),
         (some [], some [], 40), (some [], some [], 45),
         (some [], some [], 50)]).2 =
      [(0, ⟨"10.0.0.5", "pc", true, none⟩),
       (5, ⟨"10.0.0.5", "pc", false, some 5⟩)] ∧
    is_reachable ⟨"10.0.0.5", 45, "pc", true, some 0⟩ 5 = true ∧
    is_reachable ⟨"10.0.0.5", 45, "pc", false, some 0⟩ 5 = true := by
  decide

/-- C3 amended: the engine takes wasReachable = rawReachable before updating
and emits a transition event iff the raw reachable flag changed across the
cycle; offline events carry the elapsed time since last seen; in the spec's
scenario the offline event is emitted exactly once, at the t = 5 cycle
(carrying "last seen 5s ago"), not at t = 50. -/
theorem transition_events_raw :
    (∀ (reach : List String) (now : Nat) (d : DeviceData),
      (update_one reach now d).2 = [] ↔
        reach.contains d.ip_address = d.reachable) ∧
    (∀ (reach : List String) (now : Nat) (d : DeviceData) (t : Nat),
      d.reachable = true → reach.contains d.ip_address = false →
      d.last_seen = some t →
      (update_one reach now d).2 =
        [⟨d.ip_address, d.title, false, some (now - t)⟩]) ∧
    (run_schedule [("pc1", ⟨"10.0.0.5", 45, "pc", false, none⟩)]
        [(some ["10.0.0.5"], some [], 0), (some [], some [], 5),
         (some [], some [], 10), (some [], some [], 15),
         (some [], some [], 20), (some [], some [], 25),
         (some [], some [], 30), (some [], some [], 35),
         (some [], some [], 40), (some [], some [], 45),
         (some [], some [], 50)]).2 =
      [(0, ⟨"10.0.0.5", "pc", true, none⟩),
       (5, ⟨"10.0.0.5", "pc", false, some 5⟩)] := by
  refine ⟨?_, ?_, by decide⟩
  · intro reach now d
    by_cases hmem : d.ip_address ∈ reach <;>
      cases hr : d.reachable <;>
        simp [update_one, hmem, hr]
  · intro reach now d t hr hc hl
    have hmem : d.ip_address ∉ reach := by simpa using hc
    simp [update_one, hmem, hr, hl]

/-- Witness for C3's amended theorem: device raw-reachable with last seen at
0, probe finds nothing at now = 5; exactly the offline event with elapsed 5
is emitted. -/
theorem transition_events_raw_witness :
    (update_one [] 5 ⟨"10.0.0.5", 45, "pc", true, some 0⟩).2 =
      [⟨"10.0.0.5", "pc", false, some 5⟩] :=
  transition_events_raw.2.1 [] 5 ⟨"10.0.0.5", 45, "pc", true, some 0⟩ 0
    rfl (by decide) rfl

/-- C7 counterexample: `get_arp_subprocess` never inspects the exit status; a
process that exits non-zero after writing a neighbor row to stdout has its
output returned (and parsed by ScannerIPNeigh) rather than the empty result
the claim requires for a non-zero exit. -/
theorem arp_nonzero_exit_counterexample :
    get_arp_subprocess (SubprocResult.completed 1
      ["192.168.1.38 dev eth0 lladdr aa:bb:cc:dd:ee:ff REACHABLE"]) =
      ["192.168.1.38 dev eth0 lladdr aa:bb:cc:dd:ee:ff REACHABLE"] ∧
    ScannerIPNeigh.get_arp_records (SubprocResult.completed 1
      ["192.168.1.38 dev eth0 lladdr aa:bb:cc:dd:ee:ff REACHABLE"]) =
      ["192.168.1.38"] := by
  decide

/-- Helper: membership in the shared row-processing of the two subprocess
strategies (`if result: response = [row.split()[0] for row in result if
row.count(":") == 5]`). -/
theorem parse_rows_mem (rows : List String) (tok : String) :
    (tok ∈ if rows.isEmpty then ([] : List String) else
      (rows.filter (fun row => countColons row == 5)).map firstToken) ↔
    ∃ row, row ∈ rows ∧ countColons row = 5 ∧ tok = firstToken row := by
  cases rows with
  | nil => simp
  | cons hd tl =>
      have hne : ¬((hd :: tl).isEmpty = true) := by simp
      rw [if_neg hne]
      constructor
      · intro h
        obtain ⟨row, hrow, hft⟩ := List.mem_map.mp h
        obtain ⟨hmem, hcc⟩ := List.mem_filter.mp hrow
        exact ⟨row, hmem, by simpa using hcc, hft.symm⟩
      · rintro ⟨row, hmem, hcc, rfl⟩
        exact List.mem_map.mpr
          ⟨row, List.mem_filter.mpr ⟨hmem, by simpa using hcc⟩, rfl⟩

/-- C7 amended: the subprocess call is bounded by the 2 s timeout and returns
the empty list on timeout or on any exception, never raising to the fusion
engine; the exit status is not examined, so a completed process's stdout
lines are returned as-is; the subprocess strategies then keep exactly the
rows containing five ':' characters and return each such row's first
whitespace-separated token. -/
theorem arp_subprocess_spec :
    (get_arp_subprocess SubprocResult.timedOut = [] ∧
      get_arp_subprocess SubprocResult.errored = []) ∧
    (∀ (rc : Int) (stdout : List String),
      get_arp_subprocess (SubprocResult.completed rc stdout) = stdout) ∧
    (∀ (r : SubprocResult) (tok : String),
      tok ∈ ScannerIPNeigh.get_arp_records r ↔
        ∃ row, row ∈ get_arp_subprocess r ∧ countColons row = 5 ∧
          tok = firstToken row) ∧
    (∀ (r : SubprocResult) (tok : String),
      tok ∈ ScannerArp.get_arp_records r ↔
        ∃ row, row ∈ get_arp_subprocess r ∧ countColons row = 5 ∧
          tok = firstToken row) := by
  refine ⟨⟨rfl, rfl⟩, fun rc stdout => rfl, ?_, ?_⟩ <;>
    intro r tok
  · exact parse_rows_mem (get_arp_subprocess r) tok
  · exact parse_rows_mem (get_arp_subprocess r) tok

/-- Witness for C7's amended theorem: a timed-out invocation yields the empty
record list through ScannerIPNeigh. -/
theorem arp_subprocess_spec_witness :
    ("192.168.1.38" ∈ ScannerIPNeigh.get_arp_records SubprocResult.timedOut ↔
      ∃ row, row ∈ get_arp_subprocess SubprocResult.timedOut ∧
        countColons row = 5 ∧ "192.168.1.38" = firstToken row) :=
  arp_subprocess_spec.2.2.1 SubprocResult.timedOut "192.168.1.38"

/-- Helper for C9: one `add_computer` step either keeps an existing entry or
adds one built with the default grace window. -/
theorem add_computer_mem (room : String) (devs : List (String × DeviceData))
    (c : Computer) (e : String × DeviceData)
    (he : e ∈ add_computer room devs c) :
    e ∈ devs ∨ e.2.consider_home = DEFAULT_CONSIDER_HOME := by
  unfold add_computer at he
  split at he
  · exact .inl he
  · rcases List.mem_append.mp he with h | h
    · exact .inl h
    · right
      rw [List.mem_singleton.mp h]

/-- Helper for C9: the inner fold over one room's computers. -/
theorem foldl_add_computer_mem (room : String) (cs : List Computer)
    (devs : List (String × DeviceData)) (e : String × DeviceData)
    (he : e ∈ cs.foldl (add_computer room) devs) :
    e ∈ devs ∨ e.2.consider_home = DEFAULT_CONSIDER_HOME := by
  induction cs generalizing devs with
  | nil => exact .inl he
  | cons c cs ih =>
      rcases ih (add_computer room devs c) he with h | h
      · exact add_computer_mem room devs c e h
      · exact .inr h

/-- C9: every device created by the configuration loop of `async_setup_entry`
carries the constant grace window `DEFAULT_CONSIDER_HOME` (45 seconds): every
entry of the resulting registry is either a pre-existing entry or has
`consider_home = DEFAULT_CONSIDER_HOME`; the grace window is not configurable
per device. -/
theorem create_devices_consider_home (rooms : List (String × List Computer))
    (devices : List (String × DeviceData)) (e : String × DeviceData)
    (he : e ∈ create_devices rooms devices) :
    e ∈ devices ∨ e.2.consider_home = DEFAULT_CONSIDER_HOME := by
  unfold create_devices at he
  induction rooms generalizing devices with
  | nil => exact .inl he
  | cons room rooms ih =>
      rcases ih (room.2.foldl (add_computer room.1) devices) he with h | h
      · exact foldl_add_computer_mem room.1 room.2 devices e h
      · exact .inr h

/-- Witness for C9: one room with one computer, starting from the empty
registry; the created device carries the 45-second grace window. -/
theorem create_devices_consider_home_witness :
    (("device_tracker.netcafe_192_168_1_38",
        ({ ip_address := "192.168.1.38", consider_home := 45,
           title := "r - 192.168.1.38" } : DeviceData)) ∈
      ([] : List (String × DeviceData))) ∨
    ({ ip_address := "192.168.1.38", consider_home := 45,
       title := "r - 192.168.1.38" } : DeviceData).consider_home =
      DEFAULT_CONSIDER_HOME :=
  create_devices_consider_home
    [("r", [⟨"device_tracker.netcafe_192_168_1_38", "192.168.1.38"⟩])] [] _
    (by decide)

/-- Helper for C10: `update_one` keeps identity fields and never clears the
last-seen timestamp. -/
theorem update_one_frame (reach : List String) (now : Nat) (d : DeviceData) :
    ((update_one reach now d).1.ip_address = d.ip_address) ∧
    ((update_one reach now d).1.title = d.title) ∧
    ((update_one reach now d).1.consider_home = d.consider_home) ∧
    ((update_one reach now d).1.last_seen = d.last_seen ∨
      (update_one reach now d).1.last_seen = some now) := by
  unfold update_one
  cases reach.contains d.ip_address <;> simp

/-- Helper for C10: on the happy path the registry after a cycle is the
entrywise image of the registry before it. -/
theorem async_update_devices_devices_eq (devices : List (String × DeviceData))
    (ping : List String) (arpResult : Option (List String)) (now : Nat) :
    (async_update_devices devices (some ping) arpResult now).devices =
      devices.map (fun p => (p.1,
        (update_one (reachable_ip (devices.map (fun q => q.2.ip_address))
          ping arpResult) now p.2).1)) := by
  cases devices with
  | nil => rfl
  | cons hd tl =>
      simp [async_update_devices, List.map_map]

/-- C10: a successful fusion cycle touches only reachability state: the
registry keys are unchanged, each device keeps its ip_address, title and
consider_home, and the last-seen timestamp is either left as-is or set to the
cycle's time, never cleared; with an empty registry the call returns
immediately, independently of both probe outcomes. -/
theorem cycle_frame (devices : List (String × DeviceData)) (ping : List String)
    (arpResult : Option (List String)) (now : Nat) :
    ((async_update_devices devices (some ping) arpResult now).devices.map
        Prod.fst = devices.map Prod.fst) ∧
    ((async_update_devices devices (some ping) arpResult now).devices.map
        (fun p => p.2.ip_address) =
      devices.map (fun p => p.2.ip_address)) ∧
    ((async_update_devices devices (some ping) arpResult now).devices.map
        (fun p => p.2.title) = devices.map (fun p => p.2.title)) ∧
    ((async_update_devices devices (some ping) arpResult now).devices.map
        (fun p => p.2.consider_home) =
      devices.map (fun p => p.2.consider_home)) ∧
    (List.Forall₂ (fun (p q : String × DeviceData) =>
        q.2.last_seen = p.2.last_seen ∨ q.2.last_seen = some now)
      devices (async_update_devices devices (some ping) arpResult now).devices) ∧
    (∀ (p a : Option (List String)),
      async_update_devices [] p a now = ⟨[], [], true⟩) := by
  rw [async_update_devices_devices_eq]
  refine ⟨?_, ?_, ?_, ?_, ?_, fun p a => rfl⟩
  · simp [List.map_map]
  · simp only [List.map_map]
    exact List.map_congr_left fun p _ => (update_one_frame _ now p.2).1
  · simp only [List.map_map]
    exact List.map_congr_left fun p _ => (update_one_frame _ now p.2).2.1
  · simp only [List.map_map]
    exact List.map_congr_left fun p _ => (update_one_frame _ now p.2).2.2.1
  · rw [List.forall₂_map_right_iff]
    rw [List.forall₂_same]
    exact fun p _ => (update_one_frame _ now p.2).2.2.2

/-- Witness for C10 at a one-device registry with the device found by ping. -/
theorem cycle_frame_witness :
    (async_update_devices
        [("pc1", ⟨"10.0.0.5", 45, "pc", false, none⟩)]
        (some ["10.0.0.5"]) (some []) 0).devices.map Prod.fst =
      [("pc1", (⟨"10.0.0.5", 45, "pc", false, none⟩ : DeviceData))].map
        Prod.fst :=
  (cycle_frame [("pc1", ⟨"10.0.0.5", 45, "pc", false, none⟩)]
    ["10.0.0.5"] (some []) 0).1

end Netcafe
